import Mathlib

/-!
Verification development for the C-parser front end of the C-to-MIPS compiler
(files `pycparser/c_parser.py` and `pycparser/plyparser.py`).

The Python source is a PLY (yacc) grammar whose semantic actions build the AST.
We shallowly embed, in Lean:
  * the AST node model (`c_ast.py` is not part of the given sources; the node
    shapes are modelled from the specification §3 together with every
    constructor call site in `c_parser.py`),
  * the scope tracker, the declarator-splicing algorithm, the declaration
    builder, and the individual grammar-production actions, and
  * for each concrete program of interest, the exact sequence of reductions the
    LALR engine performs on it, composed from those production actions.

Modelling conventions, stated once here:
  * The pydot graph that the actions build is a write-only side channel; the
    `graph.add_node` / `add_edge` calls themselves are not modelled.  What IS
    modelled is every effect those calls have on semantic values: the global
    `counter` is threaded explicitly through every production (each production
    returns its value together with the advanced counter), and every
    `"node_<counter>"` string that the source appends to (or stores inside) a
    semantic value is reproduced verbatim.
  * Several productions encode a pair (text, graph-node name) as the single
    Python string `text + "@node_k"`, which every consumer immediately undoes
    with `split("@")[0]`.  Since the texts involved (C keywords, braces) never
    contain `"@"`, this round trip is the identity on the text; we model the
    encoded value as an explicit pair `TaggedStr`.
  * Python exceptions are modelled by `Except PyErr`: `ParseError` carries the
    single string `"<coord>: <msg>"` exactly as `PLYParser._parse_error`
    formats it, and every other dynamic failure (AttributeError, IndexError,
    AssertionError) is the catch-all `PyErr.fault`.
  * A Python dict used as a scope is modelled as an association list with
    update-in-place semantics; dict keys may be `None` (Python allows it), so
    keys are `Option String`.
-/

set_option maxHeartbeats 1000000

namespace CParserModel

/-- Coordinates of a syntactic element (`plyparser.Coord`): file name, line,
optional column. -/
structure Coord where
  file : String
  line : Nat
  column : Option Nat := none
deriving DecidableEq

/-- Rendering of a coordinate (`Coord.__str__`): `"file:line"`, extended with
`":column"` when the column is present and truthy (Python omits a 0 column). -/
def Coord.render (c : Coord) : String :=
  let base := c.file ++ ":" ++ toString c.line
  match c.column with
  | some n => if n ≠ 0 then base ++ ":" ++ toString n else base
  | none => base

/-- The exception raised by `PLYParser._parse_error`; it carries the single
formatted string `"%s: %s" % (coord, msg)`. -/
structure ParseError where
  rendered : String
deriving DecidableEq

/-- Errors of the embedded Python code: a raised `ParseError`, or any other
dynamic failure (AttributeError / IndexError / AssertionError), which aborts
the parse but is not a structured parse error. -/
inductive PyErr where
  | parse (e : ParseError)
  | fault
deriving DecidableEq

/-- The second argument of `_parse_error`: usually a `Coord`, but
`p_error` passes the bare filename string at end of input, and
`_build_declarations` can pass the placeholder string `"?"`. -/
inductive CoordArg where
  | c (co : Coord)
  | s (st : String)
deriving DecidableEq

/-- String interpolation performed on the `coord` argument by
`"%s: %s" % (coord, msg)`. -/
def CoordArg.render : CoordArg → String
  | .c co => co.render
  | .s st => st

/-- Embedding of `PLYParser._parse_error`: raise a `ParseError` whose message
is the rendered coordinate, a colon-space, and the message. -/
def parse_error (msg : String) (coord : CoordArg) : PyErr :=
  .parse ⟨coord.render ++ ": " ++ msg⟩

/-- Embedding of `PLYParser._coord`: a coordinate with the lexer filename and
the given line; the grammar actions modelled here never pass a column. -/
def plyCoord (filename : String) (lineno : Nat) : Coord :=
  ⟨filename, lineno, none⟩

/-- A single quote character, used to reproduce the Python `%r` rendering of a
string in error messages. -/
def sq : String := String.singleton (Char.ofNat 39)

/-- Python `repr` of a dict key that is either a string or `None`, as used in
the `%r` error messages of the scope tracker. -/
def pyReprKey : Option String → String
  | some s => sq ++ s ++ sq
  | none => "None"

/-- AST node model.  `c_ast.py` is not among the given sources; modelled from
the spec (§3, data model) and from every `c_ast.*` constructor call site in
`c_parser.py`.  Fields follow Python attribute names (`type` becomes `ty`).
All attribute values that Python may set to `None` are `Option`s.
The extra constructor `strRef` models the plain `"node_<k>"` graph-reference
strings that the instrumented semantic actions insert into the same Python
lists that hold AST nodes. -/
inductive CAst where
  | IdentifierType (names : List String) (coord : Coord)
  | TypeDecl (declname : Option String) (quals : Option (List String))
      (ty : Option CAst) (coord : Coord)
  | PtrDecl (quals : List String) (ty : Option CAst) (coord : Coord)
  | ArrayDecl (dim : Option CAst) (dim_quals : List String)
      (ty : Option CAst) (coord : Coord)
  | FuncDecl (args : Option CAst) (ty : Option CAst) (coord : Coord)
  | Decl (name : Option String) (quals storage funcspec : List String)
      (ty : Option CAst) (init : Option CAst) (bitsize : Option CAst) (coord : Coord)
  | Typedef (name : Option String) (quals storage : List String)
      (ty : Option CAst) (coord : Coord)
  | Typename (name : Option String) (quals : List String)
      (ty : Option CAst) (coord : Coord)
  | FuncDef (decl : CAst) (param_decls : Option (List CAst)) (body : CAst) (coord : Coord)
  | FileAST (ext : List CAst)
  | ParamList (params : List CAst) (coord : Coord)
  | EllipsisParam (coord : Coord)
  | ID (name : String) (coord : Coord)
  | Constant (kind value : String) (coord : Coord)
  | BinaryOp (op : String) (left right : CAst) (coord : Coord)
  | Return (expr : Option CAst) (coord : Coord)
  | Compound (block_items : Option (List CAst)) (coord : Coord)
  | Struct (name : Option String) (decls : Option (List CAst)) (coord : Coord)
  | Union (name : Option String) (decls : Option (List CAst)) (coord : Coord)
  | Enum (name : Option String) (values : Option CAst) (coord : Coord)
  | strRef (s : String)

/-- Python attribute access `node.coord`; `none` models an AttributeError
(`FileAST` and plain strings have no `coord`). -/
def CAst.coord? : CAst → Option Coord
  | .IdentifierType _ co => some co
  | .TypeDecl _ _ _ co => some co
  | .PtrDecl _ _ co => some co
  | .ArrayDecl _ _ _ co => some co
  | .FuncDecl _ _ co => some co
  | .Decl _ _ _ _ _ _ _ co => some co
  | .Typedef _ _ _ _ co => some co
  | .Typename _ _ _ co => some co
  | .FuncDef _ _ _ co => some co
  | .FileAST _ => none
  | .ParamList _ co => some co
  | .EllipsisParam co => some co
  | .ID _ co => some co
  | .Constant _ _ co => some co
  | .BinaryOp _ _ _ co => some co
  | .Return _ co => some co
  | .Compound _ co => some co
  | .Struct _ _ co => some co
  | .Union _ _ co => some co
  | .Enum _ _ co => some co
  | .strRef _ => none

/-- Python attribute access `node.type` on the nodes that carry one;
`none` models an AttributeError. -/
def CAst.ty? : CAst → Option (Option CAst)
  | .TypeDecl _ _ t _ => some t
  | .PtrDecl _ t _ => some t
  | .ArrayDecl _ _ t _ => some t
  | .FuncDecl _ t _ => some t
  | .Decl _ _ _ _ t _ _ _ => some t
  | .Typedef _ _ _ t _ => some t
  | .Typename _ _ t _ => some t
  | _ => none

/-- Python test `isinstance(node, c_ast.IdentifierType)`. -/
def CAst.isIdentifierType : CAst → Bool
  | .IdentifierType _ _ => true
  | _ => false

/-- Python test `isinstance(node, c_ast.TypeDecl)`. -/
def CAst.isTypeDecl : CAst → Bool
  | .TypeDecl _ _ _ _ => true
  | _ => false

/-- Python test `isinstance(node, c_ast.FuncDecl)`. -/
def CAst.isFuncDecl : CAst → Bool
  | .FuncDecl _ _ _ => true
  | _ => false

/-- Python test `isinstance(node, c_ast.EllipsisParam)`. -/
def CAst.isEllipsisParam : CAst → Bool
  | .EllipsisParam _ => true
  | _ => false

/-- Python test `isinstance(node, (c_ast.Struct, c_ast.Union, c_ast.IdentifierType))`,
used both in `_build_declarations` and on `declaration.type`. -/
def CAst.isStructUnionIdType : CAst → Bool
  | .Struct _ _ _ => true
  | .Union _ _ _ => true
  | .IdentifierType _ _ => true
  | _ => false

/-- Python test `isinstance(node, (c_ast.Struct, c_ast.Union, c_ast.Enum))`
(`p_decl_body`). -/
def CAst.isStructUnionEnum : CAst → Bool
  | .Struct _ _ _ => true
  | .Union _ _ _ => true
  | .Enum _ _ _ => true
  | _ => false

/-- Attribute access `node.names` (only `IdentifierType` has it). -/
def CAst.names? : CAst → Option (List String)
  | .IdentifierType ns _ => some ns
  | _ => none

/-- Attribute access `node.name` on the nodes that carry one (the attribute
value itself may be `None`, hence the doubled `Option`). -/
def CAst.name? : CAst → Option (Option String)
  | .Decl n _ _ _ _ _ _ _ => some n
  | .Typedef n _ _ _ _ => some n
  | .Typename n _ _ _ => some n
  | .ID n _ => some (some n)
  | .Struct n _ _ => some n
  | .Union n _ _ => some n
  | .Enum n _ _ => some n
  | _ => none

/-- Attribute access `node.params` (only `ParamList` has it). -/
def CAst.params? : CAst → Option (List CAst)
  | .ParamList ps _ => some ps
  | _ => none

/-- Attribute access `node.quals` on the declaration-shaped nodes that the
declaration builder reads it from. -/
def CAst.declQuals? : CAst → Option (List String)
  | .Decl _ q _ _ _ _ _ _ => some q
  | .Typedef _ q _ _ _ => some q
  | .Typename _ q _ _ => some q
  | _ => none

/-- Lift an `Option` (a possibly failing Python attribute access or list
index) into the error monad: `none` is a dynamic fault. -/
def liftO : Option α → Except PyErr α
  | some a => .ok a
  | none => .error .fault

/-- Python `list.pop()`: removes and returns the last element; raises on an
empty list. -/
def pyPop : List α → Option (List α × α)
  | [] => none
  | [a] => some ([], a)
  | a :: rest => (pyPop rest).map fun (r, x) => (a :: r, x)

/-- Python `lst[len(lst)-1] = v`: replace the last element (no-op impossible;
empty list faults at the call sites that use it, which never pass one). -/
def setLast (l : List α) (v : α) : List α :=
  match l with
  | [] => []
  | [_] => [v]
  | a :: rest => a :: setLast rest v

/-! ## Scope tracker

The source keeps `_scope_stack` as a Python list whose LAST element is the
innermost scope (`_scope_stack[-1]`), and `_is_type_in_scope` walks
`reversed(_scope_stack)`.  We store the stack with the innermost scope at the
HEAD of the list, so direct list recursion is exactly the source's
innermost-to-outermost iteration; `push`/`pop`/`[-1]` act on the head. -/

/-- A single scope: a dict from names (dict keys, possibly `None`) to a
boolean — `true` means the name is a typedef name, `false` an ordinary
identifier. -/
abbrev Scope := List (Option String × Bool)

/-- The scope stack, innermost scope first (see section comment). -/
abbrev ScopeStack := List Scope

/-- Python `dict.get(k)`: the value bound to `k`, if any (first binding wins,
matching dict-update semantics of `scopeSet`). -/
def scopeGet (sc : Scope) (k : Option String) : Option Bool :=
  match sc with
  | [] => none
  | (k0, v) :: rest => if k0 = k then some v else scopeGet rest k

/-- Python `d[k] = v`: update the binding of `k` in place, or add one. -/
def scopeSet (sc : Scope) (k : Option String) (v : Bool) : Scope :=
  match sc with
  | [] => [(k, v)]
  | (k0, v0) :: rest =>
      if k0 = k then (k0, v) :: rest else (k0, v0) :: scopeSet rest k v

/-- Embedding of `CParser._push_scope`: append a fresh empty scope. -/
def push_scope (st : ScopeStack) : ScopeStack := [] :: st

/-- Embedding of `CParser._pop_scope`: drop the innermost scope; the
`assert len(self._scope_stack) > 1` failure is a fault. -/
def pop_scope (st : ScopeStack) : Except PyErr ScopeStack :=
  match st with
  | _ :: s :: rest => .ok (s :: rest)
  | _ => .error .fault

/-- Embedding of `CParser._add_typedef_name`: error when the innermost scope
already records the name as a non-typedef (`get(name, True)` is `False`),
otherwise bind it to `True` there. -/
def add_typedef_name (name : Option String) (coord : CoordArg) (st : ScopeStack) :
    Except PyErr ScopeStack :=
  match st with
  | [] => .error .fault
  | inner :: rest =>
      if (scopeGet inner name).getD true = false then
        .error (parse_error
          ("Typedef " ++ pyReprKey name ++
            " previously declared as non-typedef in this scope") coord)
      else .ok (scopeSet inner name true :: rest)

/-- Embedding of `CParser._add_identifier`: error when the innermost scope
already records the name as a typedef (`get(name, False)` is `True`),
otherwise bind it to `False` there. -/
def add_identifier (name : Option String) (coord : CoordArg) (st : ScopeStack) :
    Except PyErr ScopeStack :=
  match st with
  | [] => .error .fault
  | inner :: rest =>
      if (scopeGet inner name).getD false = true then
        .error (parse_error
          ("Non-typedef " ++ pyReprKey name ++
            " previously declared as typedef in this scope") coord)
      else .ok (scopeSet inner name false :: rest)

/-- Embedding of `CParser._is_type_in_scope`: scan the scopes innermost to
outermost and return the first recorded classification; `False` when the name
is nowhere recorded. -/
def is_type_in_scope (st : ScopeStack) (name : String) : Bool :=
  match st with
  | [] => false
  | sc :: rest =>
      match scopeGet sc (some name) with
      | some b => b
      | none => is_type_in_scope rest name

/-! ## Declarator resolution (`CParser._type_modify_decl`) -/

/-- The first half of `_type_modify_decl`: walk `modifier` to its own tail
(`while modifier_tail.type: modifier_tail = modifier_tail.type`) and store `x`
in the tail's empty `type` slot.  `none` models the AttributeError raised when
the walk reaches a node without a `type` attribute. -/
def modifierAttach (m x : CAst) : Option CAst :=
  match m with
  | .TypeDecl dn q t co =>
      match t with
      | none => some (.TypeDecl dn q (some x) co)
      | some t0 => (modifierAttach t0 x).map fun t1 => .TypeDecl dn q (some t1) co
  | .PtrDecl q t co =>
      match t with
      | none => some (.PtrDecl q (some x) co)
      | some t0 => (modifierAttach t0 x).map fun t1 => .PtrDecl q (some t1) co
  | .ArrayDecl d dq t co =>
      match t with
      | none => some (.ArrayDecl d dq (some x) co)
      | some t0 => (modifierAttach t0 x).map fun t1 => .ArrayDecl d dq (some t1) co
  | .FuncDecl a t co =>
      match t with
      | none => some (.FuncDecl a (some x) co)
      | some t0 => (modifierAttach t0 x).map fun t1 => .FuncDecl a (some t1) co
  | .Decl n q s f t i b co =>
      match t with
      | none => some (.Decl n q s f (some x) i b co)
      | some t0 => (modifierAttach t0 x).map fun t1 => .Decl n q s f (some t1) i b co
  | .Typedef n q s t co =>
      match t with
      | none => some (.Typedef n q s (some x) co)
      | some t0 => (modifierAttach t0 x).map fun t1 => .Typedef n q s (some t1) co
  | .Typename n q t co =>
      match t with
      | none => some (.Typename n q (some x) co)
      | some t0 => (modifierAttach t0 x).map fun t1 => .Typename n q (some t1) co
  | _ => none

/-- The second half of `_type_modify_decl` (the non-`TypeDecl` branch): walk
`decl` until `decl_tail.type` is a `TypeDecl`, attach that `TypeDecl` at the
tail of `modifier`, and put the modifier chain where the `TypeDecl` was.
Reaching a node without a `type` attribute, or a `None` link, is the
AttributeError the Python loop would raise. -/
def declSplice (d modifier : CAst) : Option CAst :=
  match d with
  | .TypeDecl dn q t co =>
      match t with
      | some (.TypeDecl a b c e) =>
          (modifierAttach modifier (.TypeDecl a b c e)).map
            fun m => .TypeDecl dn q (some m) co
      | some t0 => (declSplice t0 modifier).map fun t1 => .TypeDecl dn q (some t1) co
      | none => none
  | .PtrDecl q t co =>
      match t with
      | some (.TypeDecl a b c e) =>
          (modifierAttach modifier (.TypeDecl a b c e)).map
            fun m => .PtrDecl q (some m) co
      | some t0 => (declSplice t0 modifier).map fun t1 => .PtrDecl q (some t1) co
      | none => none
  | .ArrayDecl dm dq t co =>
      match t with
      | some (.TypeDecl a b c e) =>
          (modifierAttach modifier (.TypeDecl a b c e)).map
            fun m => .ArrayDecl dm dq (some m) co
      | some t0 => (declSplice t0 modifier).map fun t1 => .ArrayDecl dm dq (some t1) co
      | none => none
  | .FuncDecl ar t co =>
      match t with
      | some (.TypeDecl a b c e) =>
          (modifierAttach modifier (.TypeDecl a b c e)).map
            fun m => .FuncDecl ar (some m) co
      | some t0 => (declSplice t0 modifier).map fun t1 => .FuncDecl ar (some t1) co
      | none => none
  | _ => none

/-- Embedding of `CParser._type_modify_decl`: tack a type modifier onto a
declarator.  If the declarator is a bare `TypeDecl` it becomes the modifier
tail's type; otherwise the modifier chain is spliced in just before the
declarator's terminal `TypeDecl`. -/
def type_modify_decl (decl modifier : CAst) : Option CAst :=
  if decl.isTypeDecl then modifierAttach modifier decl
  else declSplice decl modifier

/-! ## Declaration fixing (`CParser._fix_decl_name_type`) and helpers -/

/-- The walk `while not isinstance(type, TypeDecl): type = type.type`,
returning the terminal `TypeDecl` node; `none` is the AttributeError on a
broken chain. -/
def findTerminalTypeDecl : CAst → Option CAst
  | .TypeDecl dn q t co => some (.TypeDecl dn q t co)
  | .PtrDecl _ t _ => match t with | some t0 => findTerminalTypeDecl t0 | none => none
  | .ArrayDecl _ _ t _ => match t with | some t0 => findTerminalTypeDecl t0 | none => none
  | .FuncDecl _ t _ => match t with | some t0 => findTerminalTypeDecl t0 | none => none
  | .Decl _ _ _ _ t _ _ _ => match t with | some t0 => findTerminalTypeDecl t0 | none => none
  | .Typedef _ _ _ t _ => match t with | some t0 => findTerminalTypeDecl t0 | none => none
  | .Typename _ _ t _ => match t with | some t0 => findTerminalTypeDecl t0 | none => none
  | _ => none

/-- Pure counterpart of mutating the terminal `TypeDecl` found by the walk:
rebuild the chain with `f` applied to that node. -/
def replaceTerminalTypeDecl (d : CAst) (f : CAst → CAst) : Option CAst :=
  match d with
  | .TypeDecl dn q t co => some (f (.TypeDecl dn q t co))
  | .PtrDecl q t co =>
      match t with
      | some t0 => (replaceTerminalTypeDecl t0 f).map fun t1 => .PtrDecl q (some t1) co
      | none => none
  | .ArrayDecl dm dq t co =>
      match t with
      | some t0 => (replaceTerminalTypeDecl t0 f).map fun t1 => .ArrayDecl dm dq (some t1) co
      | none => none
  | .FuncDecl a t co =>
      match t with
      | some t0 => (replaceTerminalTypeDecl t0 f).map fun t1 => .FuncDecl a (some t1) co
      | none => none
  | .Decl n q s fs t i b co =>
      match t with
      | some t0 => (replaceTerminalTypeDecl t0 f).map fun t1 => .Decl n q s fs (some t1) i b co
      | none => none
  | .Typedef n q s t co =>
      match t with
      | some t0 => (replaceTerminalTypeDecl t0 f).map fun t1 => .Typedef n q s (some t1) co
      | none => none
  | .Typename n q t co =>
      match t with
      | some t0 => (replaceTerminalTypeDecl t0 f).map fun t1 => .Typename n q (some t1) co
      | none => none
  | _ => none

/-- Attribute access `node.declname` (only `TypeDecl` has it). -/
def CAst.declname? : CAst → Option (Option String)
  | .TypeDecl n _ _ _ => some n
  | _ => none

/-- Assignment `node.name = v` on the declaration-shaped nodes. -/
def CAst.setName? : CAst → Option String → Option CAst
  | .Decl _ q s f t i b co, v => some (.Decl v q s f t i b co)
  | .Typedef _ q s t co, v => some (.Typedef v q s t co)
  | .Typename _ q t co, v => some (.Typename v q t co)
  | _, _ => none

/-- Assignment `typeDeclNode.quals = q` (leaves other nodes unchanged; only
ever applied to the terminal `TypeDecl`). -/
def setTypeDeclQuals (q : List String) : CAst → CAst
  | .TypeDecl n _ t co => .TypeDecl n (some q) t co
  | x => x

/-- Assignment `typeDeclNode.type = t`. -/
def setTypeDeclTy (t : Option CAst) : CAst → CAst
  | .TypeDecl n q _ co => .TypeDecl n q t co
  | x => x

/-- Assignment `typeDeclNode.declname = n`. -/
def setTypeDeclName (n : Option String) : CAst → CAst
  | .TypeDecl _ q t co => .TypeDecl n q t co
  | x => x

/-- The list comprehension
`[name for id in typename for name in id.names]`; `none` is the
AttributeError on an entry without `names`. -/
def flatNames : List CAst → Option (List String)
  | [] => some []
  | tn :: rest =>
      match tn.names? with
      | some ns => (flatNames rest).map fun tail => ns ++ tail
      | none => none

/-- Embedding of `CParser._fix_decl_name_type`: copy the declared name out of
the terminal `TypeDecl`, push the declaration qualifiers down onto it, and
resolve the specifier type list into the terminal base type — a lone
non-`IdentifierType` specifier is used directly (more than one type alongside
it is the "Invalid multiple types specified" error), an empty list defaults to
`int` only under a function declarator (otherwise "Missing type in
declaration"), and a list of `IdentifierType`s is concatenated into one. -/
def fix_decl_name_type (decl : CAst) (typename : List CAst) : Except PyErr CAst := do
  let td ← liftO (findTerminalTypeDecl decl)
  let dn ← liftO td.declname?
  let dq ← liftO decl.declQuals?
  let decl1 ← liftO (decl.setName? dn)
  let decl2 ← liftO (replaceTerminalTypeDecl decl1 (setTypeDeclQuals dq))
  match typename.find? (fun tn => !tn.isIdentifierType) with
  | some tn =>
      if typename.length > 1 then
        throw (parse_error "Invalid multiple types specified" (.c (← liftO tn.coord?)))
      else
        liftO (replaceTerminalTypeDecl decl2 (setTypeDeclTy (some tn)))
  | none =>
      if typename.isEmpty then do
        let dty ← liftO decl2.ty?
        let isFd := match dty with
          | some t => t.isFuncDecl
          | none => false
        if !isFd then
          throw (parse_error "Missing type in declaration" (.c (← liftO decl2.coord?)))
        else do
          let co ← liftO decl2.coord?
          liftO (replaceTerminalTypeDecl decl2
            (setTypeDeclTy (some (.IdentifierType ["int"] co))))
      else do
        let ns ← liftO (flatNames typename)
        let t0 ← liftO typename.head?
        let c0 ← liftO t0.coord?
        liftO (replaceTerminalTypeDecl decl2
          (setTypeDeclTy (some (.IdentifierType ns c0))))

/-! ## Declaration specifiers and the declaration builder -/

/-- The declaration-specifier accumulator dict of
`CParser._add_declaration_specifier`: four ordered lists.  (The instrumented
source also stores a graph-only `"ref"` entry in the same dict; it never
reaches an AST value and is not modelled.) -/
structure DeclSpec where
  qual : List String
  storage : List String
  type : List CAst
  function : List String

/-- The fresh accumulator `dict(qual=[], storage=[], type=[], function=[])`. -/
def emptySpec : DeclSpec := ⟨[], [], [], []⟩

/-- Embedding of `_add_declaration_specifier` for `kind='type'`
(`spec['type'].insert(0, newspec)`). -/
def add_spec_type (declspec : Option DeclSpec) (newspec : CAst) : DeclSpec :=
  let s := declspec.getD emptySpec
  { s with type := newspec :: s.type }

/-- Embedding of `_add_declaration_specifier` for `kind='qual'`. -/
def add_spec_qual (declspec : Option DeclSpec) (newspec : String) : DeclSpec :=
  let s := declspec.getD emptySpec
  { s with qual := newspec :: s.qual }

/-- Embedding of `_add_declaration_specifier` for `kind='storage'`. -/
def add_spec_storage (declspec : Option DeclSpec) (newspec : String) : DeclSpec :=
  let s := declspec.getD emptySpec
  { s with storage := newspec :: s.storage }

/-- Embedding of `_add_declaration_specifier` for `kind='function'`. -/
def add_spec_function (declspec : Option DeclSpec) (newspec : String) : DeclSpec :=
  let s := declspec.getD emptySpec
  { s with function := newspec :: s.function }

/-- One element of the Python list handed to `_build_declarations`: either an
init-declarator dict `{decl:…, init:…, bitsize:…}` (an absent key and a key
bound to `None` are indistinguishable through `dict.get`), or one of the plain
`"node_<k>"` strings the instrumentation appends to the same list.  (The
graph-only `"ref"` dict entry is not modelled.) -/
inductive DeclItem where
  | entry (decl : Option CAst) (init : Option CAst) (bitsize : Option CAst)
  | ref (s : String)

/-- Substring containment on character lists, modelling Python
`pat in s` for strings. -/
def containsSub (pat : List Char) : List Char → Bool
  | [] => pat.isEmpty
  | c :: rest => pat.isPrefixOf (c :: rest) || containsSub pat rest

/-- The Python test `"node_" in decl`: a key test on a dict (always false for
the keys used here), a substring test on a string. -/
def DeclItem.isNodeStr : DeclItem → Bool
  | .entry _ _ _ => false
  | .ref s => containsSub "node_".data s.data

/-- The coordinate for the "Invalid declaration" error: the first entry of
`spec['type']` with a `coord` attribute, else the placeholder string `"?"`. -/
def firstSpecCoord (ts : List CAst) : CoordArg :=
  match ts.findSome? CAst.coord? with
  | some co => .c co
  | none => .s "?"

/-- The per-declarator body of the `for decl in decls` loop of
`_build_declarations`: skip graph-reference strings, build a `Typedef` or
`Decl` sharing the accumulated specifiers, fix it up unless its type is
already a struct/union/basic type, and register the declared name when
`typedef_namespace` is set. -/
def buildDeclLoop (spec : DeclSpec) (is_typedef typedef_namespace : Bool) :
    List DeclItem → ScopeStack → Except PyErr (List CAst × ScopeStack)
  | [], st => .ok ([], st)
  | item :: rest, st => do
      if item.isNodeStr then
        buildDeclLoop spec is_typedef typedef_namespace rest st
      else
        match item with
        | .ref _ => throw .fault   -- indexing a plain string with a key
        | .entry d i b => do
            let dd ← liftO d       -- assert decl['decl'] is not None
            let co ← liftO dd.coord?
            let declaration :=
              if is_typedef then
                CAst.Typedef none spec.qual spec.storage (some dd) co
              else
                CAst.Decl none spec.qual spec.storage spec.function (some dd) i b co
            let fixed ←
              if dd.isStructUnionIdType then pure declaration
              else fix_decl_name_type declaration spec.type
            let st' ←
              if typedef_namespace then do
                let nm ← liftO fixed.name?
                let fco ← liftO fixed.coord?
                if is_typedef then add_typedef_name nm (.c fco) st
                else add_identifier nm (.c fco) st
              else pure st
            let (ds, st'') ← buildDeclLoop spec is_typedef typedef_namespace rest st'
            pure (fixed :: ds, st'')

/-- Embedding of `CParser._build_declarations`: after the two head-repair
rules for typedef-name redeclarations (synthesize a declarator from the
trailing specifier type, or name an abstract-declarator-shaped result from
it), build one declaration per declarator, all sharing the specifiers. -/
def build_declarations (spec : DeclSpec) (decls : List DeclItem)
    (typedef_namespace : Bool) (st : ScopeStack) :
    Except PyErr (List CAst × ScopeStack) := do
  let is_typedef := spec.storage.contains "typedef"
  let d0 ← liftO decls.head?
  let (spec, decls) ←
    (match d0 with
    | .ref _ => Except.error .fault  -- `decls[0].get` on a plain string
    | .entry d0decl _ d0bits =>
      if d0bits.isSome then
        pure (spec, decls)
      else
        match d0decl with
        | none =>
            -- the identifier was grouped into spec['type']; recover it
            if spec.type.length < 2 then
              throw (parse_error "Invalid declaration" (firstSpecCoord spec.type))
            else do
              let lastTy ← liftO spec.type.getLast?
              let ns ← liftO lastTy.names?
              if ns.length ≠ 1 then
                throw (parse_error "Invalid declaration" (firstSpecCoord spec.type))
              else do
                let n0 ← liftO ns.head?
                if !is_type_in_scope st n0 then
                  throw (parse_error "Invalid declaration" (firstSpecCoord spec.type))
                else do
                  let lco ← liftO lastTy.coord?
                  let newDecl := CAst.TypeDecl (some n0) none none lco
                  pure ({ spec with type := spec.type.dropLast },
                        setFirstDecl decls (some newDecl))
        | some dd =>
            if !dd.isStructUnionIdType then do
              let td ← liftO (findTerminalTypeDecl dd)
              let dn ← liftO td.declname?
              match dn with
              | some _ => pure (spec, decls)
              | none => do
                  let lastTy ← liftO spec.type.getLast?
                  let ns ← liftO lastTy.names?
                  let n0 ← liftO ns.head?
                  let dd' ← liftO (replaceTerminalTypeDecl dd (setTypeDeclName (some n0)))
                  pure ({ spec with type := spec.type.dropLast },
                        setFirstDecl decls (some dd'))
            else pure (spec, decls))
  buildDeclLoop spec is_typedef typedef_namespace decls st
where
  /-- In-place update of `decls[0]['decl']`. -/
  setFirstDecl : List DeclItem → Option CAst → List DeclItem
    | [], _ => []
    | .entry _ i b :: rest, v => .entry v i b :: rest
    | x :: rest, _ => x :: rest

/-- Embedding of `CParser._build_function_definition`: run the declaration
builder on the single declarator (registering the function name), and wrap the
result with the parameter declarations and the body into a `FuncDef`.  The
`assert 'typedef' not in spec['storage']` failure is a fault. -/
def build_function_definition (spec : DeclSpec) (decl : CAst)
    (param_decls : Option (List CAst)) (body : CAst) (st : ScopeStack) :
    Except PyErr (CAst × ScopeStack) := do
  if spec.storage.contains "typedef" then throw .fault
  let (ds, st') ← build_declarations spec [.entry (some decl) none none] true st
  let declaration ← liftO ds.head?
  let co ← liftO decl.coord?
  pure (.FuncDef declaration param_decls body co, st')

/-! ## Grammar production actions

Each `p_<rule>` action of the source is embedded as a function of its semantic
sub-results.  The global graph `counter` is threaded explicitly: an action
takes the counter at entry and returns it advanced by the number of
`counter = counter + 1` statements it executes; the `"node_<k>"` strings an
action stores inside its semantic value are reproduced with the same indices
relative to the entry counter.  (At the end of `CParser.__init__` the global
counter is 14 — one increment per synthesized optional rule — so a fresh
parser starts its first parse with counter 14.) -/

/-- The graph-node name `"node_" + str(k)`. -/
def nn (k : Nat) : String := "node_" ++ toString k

/-- A Python value of the form `text + "@node_k"`: several productions smuggle
the graph-node name alongside a keyword/brace string this way, and every
consumer recovers the text with `split("@")[0]`.  The texts never contain
`"@"`, so the encoding is modelled as an explicit pair. -/
structure TaggedStr where
  text : String
  tag : String

/-- Value effect of a synthesized `<rule>_opt` production
(`PLYParser._create_opt_rule`) on a list-valued rule: the captured graph-node
name — fixed once and for all when the rule was synthesized — is appended to
the list.  (On `None` the value stays `None`; on an AST object or dict only
the graph-only `ref` field is touched.) -/
def opt_rule_list (captured : Nat) : Option (List CAst) → Option (List CAst)
  | none => none
  | some l => some (l ++ [.strRef (nn captured)])

/-- Like `opt_rule_list`, for the init-declarator lists. -/
def opt_rule_items (captured : Nat) : Option (List DeclItem) → Option (List DeclItem)
  | none => none
  | some l => some (l ++ [.ref (nn captured)])

/-- Like `opt_rule_list`, for the qualifier string lists. -/
def opt_rule_strs (captured : Nat) : Option (List String) → Option (List String)
  | none => none
  | some l => some (l ++ [nn captured])

/-!
Captured counters of the synthesized optional rules.  `CParser.__init__`
creates them in the order of `rules_with_opt`, passing the running global
counter (initially 0); each call captures that value plus one and returns it,
so the k-th rule (0-based) captures `k+1`:
`abstract_declarator`↦1, `assignment_expression`↦2, `declaration_list`↦3,
`declaration_specifiers`↦4, `designation`↦5, `expression`↦6,
`identifier_list`↦7, `init_declarator_list`↦8, `initializer_list`↦9,
`parameter_type_list`↦10, `specifier_qualifier_list`↦11, `block_item_list`↦12,
`type_qualifier_list`↦13, `struct_declarator_list`↦14. -/

/-- Captured graph-node number of `declaration_list_opt`. -/
def optK_declaration_list : Nat := 3

/-- Captured graph-node number of `init_declarator_list_opt`. -/
def optK_init_declarator_list : Nat := 8

/-- Captured graph-node number of `block_item_list_opt`. -/
def optK_block_item_list : Nat := 12

/-- Captured graph-node number of `type_qualifier_list_opt`. -/
def optK_type_qualifier_list : Nat := 13

/-- Action `p_type_specifier_1` (basic type keyword): a one-name
`IdentifierType` at the token's coordinate; two graph nodes. -/
def p_type_specifier_1 (kw : String) (co : Coord) (c : Nat) : CAst × Nat :=
  (.IdentifierType [kw] co, c + 2)

/-- Action `p_type_specifier_2` (typedef name / enum / struct-or-union):
pass-through; one graph node. -/
def p_type_specifier_2 (p1 : CAst) (c : Nat) : CAst × Nat := (p1, c + 1)

/-- Action `p_typedef_name`: a one-name `IdentifierType` from the TYPEID. -/
def p_typedef_name (tid : String) (co : Coord) (c : Nat) : CAst × Nat :=
  (.IdentifierType [tid] co, c + 2)

/-- Action `p_storage_class_specifier`: the keyword, tagged with the second
graph node's name (`p[0] = p[0] + '@node_...'`). -/
def p_storage_class_specifier (kw : String) (c : Nat) : TaggedStr × Nat :=
  (⟨kw, nn (c + 1)⟩, c + 2)

/-- Action `p_type_qualifier`: the keyword, tagged with the second graph
node's name. -/
def p_type_qualifier (kw : String) (c : Nat) : TaggedStr × Nat :=
  (⟨kw, nn (c + 1)⟩, c + 2)

/-- Action `p_declaration_specifiers_1` (type qualifier): split off the tag
and prepend to the `qual` list. -/
def p_declaration_specifiers_1 (p1 : TaggedStr) (p2 : Option DeclSpec) (c : Nat) :
    DeclSpec × Nat :=
  (add_spec_qual p2 p1.text, c + 1)

/-- Action `p_declaration_specifiers_2` (type specifier): prepend to the
`type` list. -/
def p_declaration_specifiers_2 (p1 : CAst) (p2 : Option DeclSpec) (c : Nat) :
    DeclSpec × Nat :=
  (add_spec_type p2 p1, c + 1)

/-- Action `p_declaration_specifiers_3` (storage class): split off the tag and
prepend to the `storage` list. -/
def p_declaration_specifiers_3 (p1 : TaggedStr) (p2 : Option DeclSpec) (c : Nat) :
    DeclSpec × Nat :=
  (add_spec_storage p2 p1.text, c + 1)

/-- Action `p_type_qualifier_list`, single-qualifier alternative: the final
re-assignment `p[0] = [p[1]]` makes the value the one-element text list. -/
def p_type_qualifier_list_one (p1 : TaggedStr) (c : Nat) : List String × Nat :=
  ([p1.text], c + 1)

/-- Action `p_type_qualifier_list`, cons alternative.  Note the source pops
the LAST qualifier off `p[1]` for the graph edge before the final
re-assignment `p[0] = p[1] + [p[2]]` reads the mutated `p[1]`, so the
previous last qualifier is dropped from the value. -/
def p_type_qualifier_list_cons (p1 : List String) (p2 : TaggedStr) (c : Nat) :
    List String × Nat :=
  (p1.dropLast ++ [p2.text], c + 1)

/-- Both `p_pointer` alternatives build
`PtrDecl(quals=p[2] or [], type=None)`; Python `or` turns both `None` and an
empty list into `[]`. -/
def pyOrEmpty : Option (List String) → List String
  | none => []
  | some [] => []
  | some l => l

/-- Action `p_pointer`, single-`*` alternative: a fresh `PtrDecl` with the
optional qualifier list. -/
def p_pointer_one (quals : Option (List String)) (co : Coord) (c : Nat) : CAst × Nat :=
  (.PtrDecl (pyOrEmpty quals) none co, c + 2)

/-- Action `p_pointer`, nested alternative: walk the inner pointer chain
`p[3]` to its tail (`while tail_type.type is not None`) and hang the fresh
`PtrDecl` there, so the leftmost `*` ends up most deeply nested; the value is
the (re-rooted) `p[3]`. -/
def p_pointer_cons (quals : Option (List String)) (p3 : CAst) (co : Coord) (c : Nat) :
    Except PyErr (CAst × Nat) := do
  let nested := CAst.PtrDecl (pyOrEmpty quals) none co
  let spliced ← liftO (modifierAttach p3 nested)
  pure (spliced, c + 2)

/-- Action `p_declarator_1`: pass-through. -/
def p_declarator_1 (p1 : CAst) (c : Nat) : CAst × Nat := (p1, c + 1)

/-- Action `p_declarator_2`: splice the pointer chain into the direct
declarator via `_type_modify_decl`. -/
def p_declarator_2 (p1ptr p2dd : CAst) (c : Nat) : Except PyErr (CAst × Nat) := do
  let d ← liftO (type_modify_decl p2dd p1ptr)
  pure (d, c + 1)

/-- Action `p_direct_declarator_1` (a bare identifier): a `TypeDecl` with the
name, no qualifiers, no type yet. -/
def p_direct_declarator_1 (idName : String) (co : Coord) (c : Nat) : CAst × Nat :=
  (.TypeDecl (some idName) none none co, c + 2)

/-- The eager-parameter-registration loop of `p_direct_declarator_6`: walk the
parameter list, stop at an `EllipsisParam`, and add each parameter's name to
the current scope as an identifier. -/
def registerParams : List CAst → ScopeStack → Except PyErr ScopeStack
  | [], st => pure st
  | p :: ps, st =>
      if p.isEllipsisParam then pure st
      else do
        let nm ← liftO p.name?
        let co ← liftO p.coord?
        let st' ← add_identifier nm (.c co) st
        registerParams ps st'

/-- Action `p_direct_declarator_6` (function declarator): build the
`FuncDecl`; when the parser's lookahead token is the function body's opening
brace, eagerly register all named parameters in the current scope before the
body is parsed; then splice the modifier into the declarator. -/
def p_direct_declarator_6 (p1 : CAst) (p3 : Option CAst) (lookaheadType : String)
    (st : ScopeStack) (c : Nat) : Except PyErr (CAst × ScopeStack × Nat) := do
  let co ← liftO p1.coord?
  let func := CAst.FuncDecl p3 none co
  let st' ←
    if lookaheadType == "LBRACE" then
      match p3 with
      | none => pure st
      | some a => do
          let ps ← liftO a.params?
          registerParams ps st
    else pure st
  let d ← liftO (type_modify_decl p1 func)
  pure (d, st', c + 3)

/-- Action `p_init_declarator` without initializer: the
`{decl: …, init: None}` dict. -/
def p_init_declarator_plain (decl : CAst) (c : Nat) : DeclItem × Nat :=
  (.entry (some decl) none none, c + 1)

/-- Action `p_init_declarator_list`, single alternative: a fresh list holding
the dict plus the appended graph-node name. -/
def p_init_declarator_list_one (p1 : DeclItem) (c : Nat) : List DeclItem × Nat :=
  ([p1, .ref (nn c)], c + 1)

/-- Action `p_init_declarator_list`, comma alternative: extend with the new
dict and append the new graph-node name (the earlier names stay in place). -/
def p_init_declarator_list_cons (p1 : List DeclItem) (p3 : DeclItem) (c : Nat) :
    List DeclItem × Nat :=
  (p1 ++ [p3, .ref (nn (c + 1))], c + 2)

/-- Action `p_decl_body`: run the declaration builder (or the tag-only
struct/union/enum shortcut when there is no declarator) and append the graph
node name to the declaration list. -/
def p_decl_body (spec : DeclSpec) (p2 : Option (List DeclItem)) (st : ScopeStack)
    (c : Nat) : Except PyErr (List CAst × ScopeStack × Nat) := do
  let (decls, st') ←
    match p2 with
    | none =>
        (match spec.type with
         | [ty0] =>
            if ty0.isStructUnionEnum then do
              let co ← liftO ty0.coord?
              pure ([CAst.Decl none spec.qual spec.storage spec.function (some ty0)
                      none none co], st)
            else build_declarations spec [.entry none none none] true st
         | _ => build_declarations spec [.entry none none none] true st)
    | some items => build_declarations spec items true st
  pure (decls ++ [.strRef (nn c)], st', c + 1)

/-- Action `p_declaration`: pass the list through, appending the
`declaration` graph node's name (the SEMI node comes first). -/
def p_declaration (p1 : List CAst) (c : Nat) : List CAst × Nat :=
  (p1 ++ [.strRef (nn (c + 1))], c + 2)

/-- Action `p_declaration_list`, single alternative. -/
def p_declaration_list_one (p1 : List CAst) (c : Nat) : List CAst × Nat :=
  (p1 ++ [.strRef (nn c)], c + 1)

/-- Action `p_declaration_list`, cons alternative. -/
def p_declaration_list_cons (p1 p2 : List CAst) (c : Nat) : List CAst × Nat :=
  (p1 ++ p2 ++ [.strRef (nn c)], c + 1)

/-- Action `p_external_declaration_1` (a function definition): wrap in a list
and append the graph-node name. -/
def p_external_declaration_1 (p1 : CAst) (c : Nat) : List CAst × Nat :=
  ([p1, .strRef (nn c)], c + 1)

/-- Action `p_external_declaration_2` (a declaration): overwrite the trailing
graph-node name. -/
def p_external_declaration_2 (p1 : List CAst) (c : Nat) : List CAst × Nat :=
  (setLast p1 (.strRef (nn c)), c + 1)

/-- Action `p_translation_unit_1`: overwrite the trailing graph-node name. -/
def p_translation_unit_1 (p1 : List CAst) (c : Nat) : List CAst × Nat :=
  (setLast p1 (.strRef (nn c)), c + 1)

/-- Action `p_translation_unit_2`: pop the trailing graph-node names of both
lists, concatenate, and append the new one. -/
def p_translation_unit_2 (p1 p2 : List CAst) (c : Nat) : Except PyErr (List CAst × Nat) := do
  let (r1, _) ← liftO (pyPop p1)
  let (r2, _) ← liftO (pyPop p2)
  pure (r1 ++ r2 ++ [.strRef (nn c)], c + 1)

/-- Action `p_translation_unit_or_empty`: on empty input a `FileAST([])`;
otherwise pop the translation unit's trailing graph-node name and wrap the
rest in a `FileAST`. -/
def p_translation_unit_or_empty (p1 : Option (List CAst)) (c : Nat) :
    Except PyErr (CAst × Nat) :=
  match p1 with
  | none => .ok (.FileAST [], c + 2)
  | some l => (liftO (pyPop l)).map fun (rest, _) => (.FileAST rest, c + 1)

/-- Action `p_function_definition_2` (with declaration specifiers): defer to
`_build_function_definition`; one graph node. -/
def p_function_definition_2 (spec : DeclSpec) (p2 : CAst) (p3 : Option (List CAst))
    (p4 : CAst) (st : ScopeStack) (c : Nat) : Except PyErr (CAst × ScopeStack × Nat) := do
  let (fd, st') ← build_function_definition spec p2 p3 p4 st
  pure (fd, st', c + 1)

/-- Action `p_brace_open`: the brace character tagged with the second graph
node's name. -/
def p_brace_open (c : Nat) : TaggedStr × Nat := (⟨"\x7b", nn (c + 1)⟩, c + 2)

/-- Action `p_brace_close`. -/
def p_brace_close (c : Nat) : TaggedStr × Nat := (⟨"\x7d", nn (c + 1)⟩, c + 2)

/-- Action `p_compound_statement_1`: a `Compound` holding the optional block
item list, at the opening brace's coordinate. -/
def p_compound_statement_1 (p2 : Option (List CAst)) (co : Coord) (c : Nat) : CAst × Nat :=
  (.Compound p2 co, c + 1)

/-- Action `p_block_item` on a declaration (already a list): overwrite the
trailing graph-node name. -/
def p_block_item_decl (p1 : List CAst) (c : Nat) : List CAst × Nat :=
  (setLast p1 (.strRef (nn c)), c + 1)

/-- Action `p_block_item` on a statement: wrap in a list and append the
graph-node name. -/
def p_block_item_stmt (p1 : CAst) (c : Nat) : List CAst × Nat :=
  ([p1, .strRef (nn c)], c + 1)

/-- Action `p_block_item_list`, single alternative (also the `p[2] == [None]`
case): overwrite the trailing graph-node name. -/
def p_block_item_list_one (p1 : List CAst) (c : Nat) : List CAst × Nat :=
  (setLast p1 (.strRef (nn c)), c + 1)

/-- Action `p_block_item_list`, cons alternative: pop the first list's
trailing graph-node name, concatenate, overwrite the (new) last element. -/
def p_block_item_list_cons (p1 p2 : List CAst) (c : Nat) :
    Except PyErr (List CAst × Nat) := do
  let (r1, _) ← liftO (pyPop p1)
  pure (setLast (r1 ++ p2) (.strRef (nn c)), c + 1)

/-- Action `p_statement`: pass-through. -/
def p_statement (p1 : CAst) (c : Nat) : CAst × Nat := (p1, c + 1)

/-- Action `p_jump_statement_4` (`return`): a `Return` with the optional
expression; three graph nodes either way. -/
def p_jump_statement_4 (p2 : Option CAst) (co : Coord) (c : Nat) : CAst × Nat :=
  (.Return p2 co, c + 3)

/-- Action `p_expression`, single alternative: pass-through. -/
def p_expression_one (p1 : CAst) (c : Nat) : CAst × Nat := (p1, c + 1)

/-- Action `p_assignment_expression`, single alternative: pass-through. -/
def p_assignment_expression_one (p1 : CAst) (c : Nat) : CAst × Nat := (p1, c + 1)

/-- Action `p_conditional_expression`, single alternative: pass-through. -/
def p_conditional_expression_one (p1 : CAst) (c : Nat) : CAst × Nat := (p1, c + 1)

/-- Action `p_binary_expression`, single (`cast_expression`) alternative:
pass-through. -/
def p_binary_expression_one (p1 : CAst) (c : Nat) : CAst × Nat := (p1, c + 1)

/-- Action `p_binary_expression`, operator alternatives: build
`BinaryOp(p[2], p[1], p[3], p[1].coord)`; each operator branch adds two graph
nodes. -/
def p_binary_expression_op (opText : String) (p1 p3 : CAst) (c : Nat) :
    Except PyErr (CAst × Nat) := do
  let co ← liftO p1.coord?
  pure (.BinaryOp opText p1 p3 co, c + 2)

/-- Action `p_cast_expression_1`: pass-through. -/
def p_cast_expression_1 (p1 : CAst) (c : Nat) : CAst × Nat := (p1, c + 1)

/-- Action `p_unary_expression_1`: pass-through. -/
def p_unary_expression_1 (p1 : CAst) (c : Nat) : CAst × Nat := (p1, c + 1)

/-- Action `p_postfix_expression_1`: pass-through. -/
def p_postfix_expression_1 (p1 : CAst) (c : Nat) : CAst × Nat := (p1, c + 1)

/-- Action `p_primary_expression_1`: pass-through. -/
def p_primary_expression_1 (p1 : CAst) (c : Nat) : CAst × Nat := (p1, c + 1)

/-- Action `p_identifier`: an `ID` node. -/
def p_identifier (name : String) (co : Coord) (c : Nat) : CAst × Nat :=
  (.ID name co, c + 2)

/-- Action `p_identifier_list`, single alternative: a fresh `ParamList`. -/
def p_identifier_list_one (p1 : CAst) (c : Nat) : Except PyErr (CAst × Nat) := do
  let co ← liftO p1.coord?
  pure (.ParamList [p1] co, c + 1)

/-- Action `p_identifier_list`, comma alternative: append to the existing
`ParamList`. -/
def p_identifier_list_cons (p1 p3 : CAst) (c : Nat) : Except PyErr (CAst × Nat) := do
  let ps ← liftO p1.params?
  let co ← liftO p1.coord?
  pure (.ParamList (ps ++ [p3]) co, c + 2)

/-! ## The public entry point and the error hooks -/

/-- Stand-in for the pydot graph object handed to `CParser`; its contents are
a write-only side channel and are not modelled. -/
structure PydotGraph where
  tag : Nat
deriving DecidableEq

/-- A Python value as returned from `CParser.parse`: either a bare AST node
(what the spec's API line promises) or a 2-tuple of an AST node and the
graph (what the code returns). -/
inductive PyVal where
  | ast (a : CAst)
  | pair (a : CAst) (g : PydotGraph)

/-- Embedding of `CParser.parse`: reset the lexer filename and line counter,
the scope stack (to one empty scope) and the remembered lookahead token, run
the yacc engine — whose start-symbol value is produced by
`p_translation_unit_or_empty` — and return the TUPLE
`(engine result, self.graph)`. -/
def CParser_parse (engine : Except PyErr CAst) (graph : PydotGraph) :
    Except PyErr PyVal :=
  engine.map fun root => .pair root graph

/-- The spec's reading of the API (`parse(...) -> FileAST`; "returns a FileAST
node as its result"): the returned Python value is itself the `FileAST`
node. -/
def PyVal.isBareFileAST : PyVal → Bool
  | .ast (.FileAST _) => true
  | _ => false

/-- Embedding of `p_error` on an offending token: a parse error
`"before: <value>"` at the token's coordinate. -/
def p_error_tok (value : String) (co : Coord) : PyErr :=
  parse_error ("before: " ++ value) (.c co)

/-- Embedding of `p_error` at end of input: the coordinate slot carries the
bare filename string. -/
def p_error_eof (filename : String) : PyErr :=
  parse_error "At end of input" (.s filename)

/-! ## Concrete parses

For each program appearing in the claims we spell out, action by action, the
reduction sequence the LALR engine performs on its token stream (bottom-up,
left to right, innermost first; an optional rule reduces via its synthesized
`_opt` wrapper; the lexer pushes/pops a scope the moment it reads `{`/`}`,
which is when that token becomes the parser's lookahead, i.e. before the
reductions that token triggers).  Each run starts from a fresh parser: scope
stack `[{}]`, graph counter 14. -/

/-- Reduction sequence for parsing `int x, *px, y;` (all tokens on line 1 of
file `fn`). -/
def runC2 (fn : String) : Except PyErr (CAst × ScopeStack × Nat) := do
  let co1 := plyCoord fn 1
  let (ts, c1) := p_type_specifier_1 "int" co1 14
  let (spec, c2) := p_declaration_specifiers_2 ts none c1
  let (ddx, c3) := p_direct_declarator_1 "x" co1 c2
  let (dx, c4) := p_declarator_1 ddx c3
  let (ix, c5) := p_init_declarator_plain dx c4
  let (l1, c6) := p_init_declarator_list_one ix c5
  let (ptr, c7) := p_pointer_one none co1 c6
  let (ddpx, c8) := p_direct_declarator_1 "px" co1 c7
  let (dpx, c9) ← p_declarator_2 ptr ddpx c8
  let (ipx, c10) := p_init_declarator_plain dpx c9
  let (l2, c11) := p_init_declarator_list_cons l1 ipx c10
  let (ddy, c12) := p_direct_declarator_1 "y" co1 c11
  let (dy, c13) := p_declarator_1 ddy c12
  let (iy, c14) := p_init_declarator_plain dy c13
  let (l3, c15) := p_init_declarator_list_cons l2 iy c14
  let lOpt := opt_rule_items optK_init_declarator_list (some l3)
  let (db, st1, c16) ← p_decl_body spec lOpt [[]] c15
  let (dcl, c17) := p_declaration db c16
  let (ed, c18) := p_external_declaration_2 dcl c17
  let (tu, c19) := p_translation_unit_1 ed c18
  let (root, c20) ← p_translation_unit_or_empty (some tu) c19
  pure (root, st1, c20)

/-- Reduction sequence for the declaration `char * const * p;`, up to and
including `decl_body` (which fully determines the declaration's AST). -/
def runC3a (fn : String) : Except PyErr (List CAst × ScopeStack × Nat) := do
  let co1 := plyCoord fn 1
  let (ts, c1) := p_type_specifier_1 "char" co1 14
  let (spec, c2) := p_declaration_specifiers_2 ts none c1
  let (q, c3) := p_type_qualifier "const" c2
  let (ql, c4) := p_type_qualifier_list_one q c3
  let qOpt := opt_rule_strs optK_type_qualifier_list (some ql)
  let (pInner, c5) := p_pointer_one none co1 c4
  let (pOuter, c6) ← p_pointer_cons qOpt pInner co1 c5
  let (ddp, c7) := p_direct_declarator_1 "p" co1 c6
  let (dp, c8) ← p_declarator_2 pOuter ddp c7
  let (ip, c9) := p_init_declarator_plain dp c8
  let (l1, c10) := p_init_declarator_list_one ip c9
  let lOpt := opt_rule_items optK_init_declarator_list (some l1)
  p_decl_body spec lOpt [[]] c10

/-- Reduction sequence for the declaration `char ** const p;`, up to and
including `decl_body`. -/
def runC3b (fn : String) : Except PyErr (List CAst × ScopeStack × Nat) := do
  let co1 := plyCoord fn 1
  let (ts, c1) := p_type_specifier_1 "char" co1 14
  let (spec, c2) := p_declaration_specifiers_2 ts none c1
  let (q, c3) := p_type_qualifier "const" c2
  let (ql, c4) := p_type_qualifier_list_one q c3
  let qOpt := opt_rule_strs optK_type_qualifier_list (some ql)
  let (pInner, c5) := p_pointer_one qOpt co1 c4
  let (pOuter, c6) ← p_pointer_cons none pInner co1 c5
  let (ddp, c7) := p_direct_declarator_1 "p" co1 c6
  let (dp, c8) ← p_declarator_2 pOuter ddp c7
  let (ip, c9) := p_init_declarator_plain dp c8
  let (l1, c10) := p_init_declarator_list_one ip c9
  let lOpt := opt_rule_items optK_init_declarator_list (some l1)
  p_decl_body spec lOpt [[]] c10

/-- Reduction sequence for `typedef int T; int T;` (one line, same file
scope): first declaration registers `T` as a typedef name; in the second the
lexer then classifies `T` as a TYPEID, so it is absorbed into the declaration
specifiers and the declaration builder's recovery path runs. -/
def runC6 (fn : String) : Except PyErr (List CAst × ScopeStack × Nat) := do
  let co1 := plyCoord fn 1
  let (sc, c1) := p_storage_class_specifier "typedef" 14
  let (ts, c2) := p_type_specifier_1 "int" co1 c1
  let (spec1, c3) := p_declaration_specifiers_2 ts none c2
  let (spec2, c4) := p_declaration_specifiers_3 sc (some spec1) c3
  let (ddT, c5) := p_direct_declarator_1 "T" co1 c4
  let (dT, c6) := p_declarator_1 ddT c5
  let (iT, c7) := p_init_declarator_plain dT c6
  let (l1, c8) := p_init_declarator_list_one iT c7
  let lOpt := opt_rule_items optK_init_declarator_list (some l1)
  let (decls1, st1, c9) ← p_decl_body spec2 lOpt [[]] c8
  let (dcl1, c10) := p_declaration decls1 c9
  let (ts2, c11) := p_type_specifier_1 "int" co1 c10
  let (tn, c12) := p_typedef_name "T" co1 c11
  let (ts3, c13) := p_type_specifier_2 tn c12
  let (specI, c14) := p_declaration_specifiers_2 ts3 none c13
  let (specO, c15) := p_declaration_specifiers_2 ts2 (some specI) c14
  let (decls2, st2, c16) ← p_decl_body specO none st1 c15
  let (dcl2, c17) := p_declaration decls2 c16
  pure (dcl1 ++ dcl2, st2, c17)

/-- Reduction sequence for the K&R-style definition
`int f(a, b) int a, b; { return a + b; }` (one line). -/
def runC9 (fn : String) : Except PyErr (CAst × ScopeStack × Nat) := do
  let co1 := plyCoord fn 1
  let st0 : ScopeStack := [[]]
  let (ts, c1) := p_type_specifier_1 "int" co1 14
  let (spec, c2) := p_declaration_specifiers_2 ts none c1
  let (ddf, c3) := p_direct_declarator_1 "f" co1 c2
  let (ida, c4) := p_identifier "a" co1 c3
  let (il1, c5) ← p_identifier_list_one ida c4
  let (idb, c6) := p_identifier "b" co1 c5
  let (il2, c7) ← p_identifier_list_cons il1 idb c6
  -- identifier_list_opt: object value unchanged
  let (ddf2, st1, c8) ← p_direct_declarator_6 ddf (some il2) "INT" st0 c7
  let (df, c9) := p_declarator_1 ddf2 c8
  -- the K&R declaration list: int a, b;
  let (ts2, c10) := p_type_specifier_1 "int" co1 c9
  let (spec2, c11) := p_declaration_specifiers_2 ts2 none c10
  let (dda, c12) := p_direct_declarator_1 "a" co1 c11
  let (da, c13) := p_declarator_1 dda c12
  let (ia, c14) := p_init_declarator_plain da c13
  let (l1, c15) := p_init_declarator_list_one ia c14
  let (ddb, c16) := p_direct_declarator_1 "b" co1 c15
  let (db2, c17) := p_declarator_1 ddb c16
  let (ib, c18) := p_init_declarator_plain db2 c17
  let (l2, c19) := p_init_declarator_list_cons l1 ib c18
  let lOpt := opt_rule_items optK_init_declarator_list (some l2)
  let (dbod, st2, c20) ← p_decl_body spec2 lOpt st1 c19
  -- the lexer reads the body's `{` (the next lookahead) and pushes a scope
  let st3 := push_scope st2
  let (dcl, c21) := p_declaration dbod c20
  let (dl, c22) := p_declaration_list_one dcl c21
  let dlOpt := opt_rule_list optK_declaration_list (some dl)
  let (_bo, c23) := p_brace_open c22
  -- return a + b;
  let (ea, c24) := p_identifier "a" co1 c23
  let (ea1, c25) := p_primary_expression_1 ea c24
  let (ea2, c26) := p_postfix_expression_1 ea1 c25
  let (ea3, c27) := p_unary_expression_1 ea2 c26
  let (ea4, c28) := p_cast_expression_1 ea3 c27
  let (ea5, c29) := p_binary_expression_one ea4 c28
  let (eb, c30) := p_identifier "b" co1 c29
  let (eb1, c31) := p_primary_expression_1 eb c30
  let (eb2, c32) := p_postfix_expression_1 eb1 c31
  let (eb3, c33) := p_unary_expression_1 eb2 c32
  let (eb4, c34) := p_cast_expression_1 eb3 c33
  let (eb5, c35) := p_binary_expression_one eb4 c34
  let (esum, c36) ← p_binary_expression_op "+" ea5 eb5 c35
  let (e1, c37) := p_conditional_expression_one esum c36
  let (e2, c38) := p_assignment_expression_one e1 c37
  let (e3, c39) := p_expression_one e2 c38
  -- the lexer reads the closing `}` (the next lookahead) and pops the scope
  let st4 ← pop_scope st3
  let (ret, c40) := p_jump_statement_4 (some e3) co1 c39
  let (stm, c41) := p_statement ret c40
  let (bi, c42) := p_block_item_stmt stm c41
  let (bil, c43) := p_block_item_list_one bi c42
  let bilOpt := opt_rule_list optK_block_item_list (some bil)
  let (_bc, c44) := p_brace_close c43
  let (body, c45) := p_compound_statement_1 bilOpt co1 c44
  let (fd, st5, c46) ← p_function_definition_2 spec df dlOpt body st4 c45
  let (ed, c47) := p_external_declaration_1 fd c46
  let (tu, c48) := p_translation_unit_1 ed c47
  let (root, c49) ← p_translation_unit_or_empty (some tu) c48
  pure (root, st5, c49)

/-- Parse of the empty source string: the engine reduces
`translation_unit_or_empty : empty`, and `CParser.parse` pairs the result
with the graph. -/
def runC10 (_fn : String) (g : PydotGraph) : Except PyErr PyVal :=
  CParser_parse ((p_translation_unit_or_empty none 14).map Prod.fst) g

/-! ### Projections used to state the claims -/

/-- Is this list element a `Decl` node? -/
def CAst.isDeclNode : CAst → Bool
  | .Decl _ _ _ _ _ _ _ _ => true
  | _ => false

/-- The `Decl` nodes of a declaration list (dropping the interleaved
graph-reference strings). -/
def declsOnly (l : List CAst) : List CAst := l.filter CAst.isDeclNode

/-- The qualifier lists along a pointer chain, outermost first. -/
def ptrQualsChain : CAst → List (List String)
  | .PtrDecl q (some t) _ => q :: ptrQualsChain t
  | .PtrDecl q none _ => [q]
  | _ => []

/-- The `type` carried by a `Decl` node. -/
def CAst.declTy? : CAst → Option CAst
  | .Decl _ _ _ _ (some t) _ _ _ => some t
  | _ => none

/-- The pointer-qualifier chain of the first declaration built by a
`decl_body` run. -/
def chainOfRun (r : Except PyErr (List CAst × ScopeStack × Nat)) :
    Option (List (List String)) :=
  match r with
  | .ok (d :: _, _, _) => (d.declTy?).map ptrQualsChain
  | _ => none

/-- The first declaration built by a `decl_body` run. -/
def firstDeclOfRun (r : Except PyErr (List CAst × ScopeStack × Nat)) : Option CAst :=
  match r with
  | .ok (d :: _, _, _) => some d
  | _ => none

/-- The root AST of a whole-translation-unit run. -/
def rootOfRun (r : Except PyErr (CAst × ScopeStack × Nat)) : Option CAst :=
  match r with
  | .ok (root, _, _) => some root
  | _ => none

/-- The declarations of the root `FileAST`. -/
def CAst.ext? : CAst → Option (List CAst)
  | .FileAST l => some l
  | _ => none

/-- The parameters stored in the `FuncDecl` inside a `FuncDef`'s
declaration. -/
def fdArgsParams : CAst → Option (List CAst)
  | .FuncDef (.Decl _ _ _ _ (some (.FuncDecl (some (.ParamList ps _)) _ _)) _ _ _) _ _ _ =>
      some ps
  | _ => none

/-- The `param_decls` list of a `FuncDef`. -/
def fdParamDecls : CAst → Option (List CAst)
  | .FuncDef _ pd _ _ => pd
  | _ => none

/-- The first node of the root `FileAST` of a run. -/
def firstExtOfRun (r : Except PyErr (CAst × ScopeStack × Nat)) : Option CAst :=
  match r with
  | .ok (.FileAST (x :: _), _, _) => some x
  | _ => none

/-- Does a parameter node carry a type (a `Decl` or `Typename`)?  The bare
`ID` nodes of a K&R identifier list do not. -/
def CAst.isTypedParamNode : CAst → Bool
  | .Decl _ _ _ _ _ _ _ _ => true
  | .Typename _ _ _ _ => true
  | _ => false

/-! ## Binary-expression parsing under the precedence table

The source declares every binary operator through the single ambiguous rule
family `binary_expression : binary_expression <op> binary_expression` and
resolves the shift/reduce conflicts with the `precedence` class attribute
(rows lowest to highest, all `'left'`).  Under yacc's conflict resolution a
pending `E op1 E` handle is reduced when the lookahead operator has lower or
equal precedence (equal because `op1` is left-associative) and the lookahead
is shifted when it has strictly higher precedence — which is precisely
precedence climbing.  `binExprParse` below runs that resolution over an
operand/operator sequence, building each node with the
`p_binary_expression` action. -/

/-- The `CParser.precedence` table, verbatim: `(associativity, token names)`,
lowest precedence first. -/
def precedence : List (String × List String) := [
  ("left", ["LOR"]),
  ("left", ["LAND"]),
  ("left", ["OR"]),
  ("left", ["XOR"]),
  ("left", ["AND"]),
  ("left", ["EQ", "NE"]),
  ("left", ["GT", "GE", "LT", "LE"]),
  ("left", ["RSHIFT", "LSHIFT"]),
  ("left", ["PLUS", "MINUS"]),
  ("left", ["TIMES", "DIVIDE", "MOD"])
]

/-- The operator text carried by each operator token (the token value the
action receives as `p[2]`).  The token-to-text map lives in the lexer, which
is not among the given sources; Modelled from the spec, which names the
operators by these glyphs. -/
def tokOpText : String → Option String
  | "LOR" => some "||"
  | "LAND" => some "&&"
  | "OR" => some "|"
  | "XOR" => some "^"
  | "AND" => some "&"
  | "EQ" => some "=="
  | "NE" => some "!="
  | "GT" => some ">"
  | "GE" => some ">="
  | "LT" => some "<"
  | "LE" => some "<="
  | "RSHIFT" => some ">>"
  | "LSHIFT" => some "<<"
  | "PLUS" => some "+"
  | "MINUS" => some "-"
  | "TIMES" => some "*"
  | "DIVIDE" => some "/"
  | "MOD" => some "%"
  | _ => none

/-- The precedence level of an operator token: its row index in the table
(0 = lowest). -/
def opLevel (tok : String) : Option Nat :=
  precedence.findIdx? fun row => row.2.contains tok

/-- Precedence climbing over the pending operator/operand sequence: consume
operators of level at least `minLvl`; after consuming one, let strictly
higher levels bind into its right operand (all table rows are `'left'`, so an
equal level reduces first); build each node with the `p_binary_expression`
action.  The fuel argument strictly exceeds any possible recursion depth. -/
def climb : Nat → CAst → List (String × CAst) → Nat → Nat →
    Except PyErr (CAst × List (String × CAst) × Nat)
  | 0, lhs, rest, _, c => .ok (lhs, rest, c)
  | Nat.succ fuel, lhs, rest, minLvl, c =>
      match rest with
      | [] => .ok (lhs, [], c)
      | (op, rhs0) :: rest1 =>
          match opLevel op, tokOpText op with
          | some lvl, some txt =>
              if lvl < minLvl then .ok (lhs, (op, rhs0) :: rest1, c)
              else do
                let (rhs, rest2, c1) ← climb fuel rhs0 rest1 (lvl + 1) c
                let (node, c2) ← p_binary_expression_op txt lhs rhs c1
                climb fuel node rest2 minLvl c2
          | _, _ => .error .fault

/-- Parse a full binary-expression token sequence (first operand, then
operator/operand pairs) under the precedence table. -/
def binExprParse (first : CAst) (rest : List (String × CAst)) (c : Nat) :
    Except PyErr (CAst × Nat) := do
  let (e, rem, c1) ← climb (2 * rest.length + 2) first rest 0 c
  match rem with
  | [] => pure (e, c1)
  | _ => .error .fault

/-- The spec's wording of the table, §4.2: rows lowest to highest, operators
named by glyph, everything left-associative. -/
def precedence_spec : List (String × List String) := [
  ("left", ["||"]),
  ("left", ["&&"]),
  ("left", ["|"]),
  ("left", ["^"]),
  ("left", ["&"]),
  ("left", ["==", "!="]),
  ("left", ["<", "<=", ">=", ">"]),
  ("left", ["<<", ">>"]),
  ("left", ["+", "-"]),
  ("left", ["*", "/", "%"])
]

/-- All 18 operator tokens of the table, in table order. -/
def allOpToks : List String := (precedence.map Prod.snd).flatten

/-! ## Shared lemmas -/

/-- Popping a list that visibly ends in `x` returns the front and `x`. -/
theorem pyPop_append (l : List α) (x : α) : pyPop (l ++ [x]) = some (l, x) := by
  induction l with
  | nil => rfl
  | cons a l ih =>
      cases l with
      | nil => rfl
      | cons b l2 => simp only [List.cons_append] at ih ⊢; simp [pyPop, ih]

/-- A dict update is visible to a lookup of the same key. -/
theorem scopeGet_scopeSet_self (sc : Scope) (k : Option String) (v : Bool) :
    scopeGet (scopeSet sc k v) k = some v := by
  induction sc with
  | nil => simp [scopeSet, scopeGet]
  | cons e sc ih =>
      obtain ⟨k0, v0⟩ := e
      by_cases h : k0 = k <;> simp [scopeSet, scopeGet, h, ih]

/-- A dict update does not disturb lookups of other keys. -/
theorem scopeGet_scopeSet_ne (sc : Scope) (k k2 : Option String) (v : Bool)
    (h : k2 ≠ k) : scopeGet (scopeSet sc k v) k2 = scopeGet sc k2 := by
  have hne : ¬k = k2 := fun hh => h hh.symm
  induction sc with
  | nil => simp [scopeSet, scopeGet, hne]
  | cons e sc ih =>
      obtain ⟨k0, v0⟩ := e
      by_cases h0 : k0 = k
      · subst h0
        simp [scopeSet, scopeGet, hne]
      · simp [scopeSet, scopeGet, h0, ih]

/-! ## C10 -/

/-- C10: parsing the empty source string succeeds with no error, and the
parse-result root is `FileAST([])` — an empty declaration list.  (As
everywhere in this development, `parse` pairs that root with the graph it was
constructed with.) -/
theorem claim_C10 (fn : String) (g : PydotGraph) :
    runC10 fn g = .ok (.pair (.FileAST []) g) := rfl

/-! ## C2 -/

/-- The `Decl` nodes of the root `FileAST` of a run (the instrumentation's
graph-reference strings are not `Decl` nodes). -/
def extDeclsOfRun (r : Except PyErr (CAst × ScopeStack × Nat)) : Option (List CAst) :=
  match r with
  | .ok (.FileAST l, _, _) => some (declsOnly l)
  | _ => none

/-- C2: parsing `int x, *px, y;` produces exactly three `Decl` nodes, named
`x`, `px`, `y` in that order; the first and third carry (through their
`TypeDecl`) the base type `IdentifierType(["int"])`, the second a `PtrDecl`
wrapping a `TypeDecl` over `IdentifierType(["int"])`; each comma-separated
declarator is its own `Decl` node and all three share the declaration's
specifier lists (`quals`/`storage`/`funcspec`). -/
theorem claim_C2 (fn : String) :
    extDeclsOfRun (runC2 fn) =
      some [
        .Decl (some "x") [] [] []
          (some (.TypeDecl (some "x") (some [])
            (some (.IdentifierType ["int"] (plyCoord fn 1))) (plyCoord fn 1)))
          none none (plyCoord fn 1),
        .Decl (some "px") [] [] []
          (some (.PtrDecl []
            (some (.TypeDecl (some "px") (some [])
              (some (.IdentifierType ["int"] (plyCoord fn 1))) (plyCoord fn 1)))
            (plyCoord fn 1)))
          none none (plyCoord fn 1),
        .Decl (some "y") [] [] []
          (some (.TypeDecl (some "y") (some [])
            (some (.IdentifierType ["int"] (plyCoord fn 1))) (plyCoord fn 1)))
          none none (plyCoord fn 1)] := rfl

/-! ## C3 -/

/-- C3 counterexample: in `char * const * p;` the inner `PtrDecl`'s qualifier
list is NOT `["const"]`: the synthesized `type_qualifier_list_opt` rule
appends its captured graph-node name, so the list is
`["const", "node_13"]`. -/
theorem counterexample_C3 :
    chainOfRun (runC3a "t.c") = some [[], ["const", "node_13"]] ∧
    ((["const", "node_13"] : List String) == ["const"]) = false :=
  ⟨rfl, rfl⟩

/-- C3 (amended): `char * const * p;` yields for `p` an outer `PtrDecl` with
empty qualifiers wrapping an inner `PtrDecl` with qualifiers
`["const", "node_13"]` (the `"const"` qualifier plus the graph-reference
string appended by the synthesized optional rule) wrapping `TypeDecl` over
`char` — the leftmost pointer most deeply nested — while `char ** const p;`
attaches that same qualifier list to the outer `PtrDecl`; the two ASTs
differ. -/
theorem claim_C3 (fn : String) :
    firstDeclOfRun (runC3a fn) =
      some (.Decl (some "p") [] [] []
        (some (.PtrDecl []
          (some (.PtrDecl ["const", "node_13"]
            (some (.TypeDecl (some "p") (some [])
              (some (.IdentifierType ["char"] (plyCoord fn 1))) (plyCoord fn 1)))
            (plyCoord fn 1)))
          (plyCoord fn 1)))
        none none (plyCoord fn 1)) ∧
    firstDeclOfRun (runC3b fn) =
      some (.Decl (some "p") [] [] []
        (some (.PtrDecl ["const", "node_13"]
          (some (.PtrDecl []
            (some (.TypeDecl (some "p") (some [])
              (some (.IdentifierType ["char"] (plyCoord fn 1))) (plyCoord fn 1)))
            (plyCoord fn 1)))
          (plyCoord fn 1)))
        none none (plyCoord fn 1)) ∧
    chainOfRun (runC3a fn) = some [[], ["const", "node_13"]] ∧
    chainOfRun (runC3b fn) = some [["const", "node_13"], []] ∧
    (([[], ["const", "node_13"]] : List (List String)) ==
      [["const", "node_13"], []]) = false :=
  ⟨rfl, rfl, rfl, rfl, rfl⟩

/-! ## C6 -/

/-- C6: registering a name errors exactly on a conflicting classification in
the innermost scope — `add_typedef_name` fails precisely when the innermost
scope records the name as a non-type, `add_identifier` precisely when it
records it as a typedef name, and otherwise the innermost scope's entry is
set to the new classification; and the program `typedef int T; int T;` in one
scope fails with the declaration error naming `T`. -/
theorem claim_C6 :
    (∀ (inner : Scope) (rest : ScopeStack) (name : Option String) (co : CoordArg),
      add_typedef_name name co (inner :: rest) =
        if scopeGet inner name = some false then
          .error (parse_error
            ("Typedef " ++ pyReprKey name ++
              " previously declared as non-typedef in this scope") co)
        else .ok (scopeSet inner name true :: rest)) ∧
    (∀ (inner : Scope) (rest : ScopeStack) (name : Option String) (co : CoordArg),
      add_identifier name co (inner :: rest) =
        if scopeGet inner name = some true then
          .error (parse_error
            ("Non-typedef " ++ pyReprKey name ++
              " previously declared as typedef in this scope") co)
        else .ok (scopeSet inner name false :: rest)) ∧
    (∀ fn, runC6 fn = .error (parse_error
        ("Non-typedef " ++ pyReprKey (some "T") ++
          " previously declared as typedef in this scope")
        (.c (plyCoord fn 1)))) := by
  refine ⟨?_, ?_, fun fn => rfl⟩
  · intro inner rest name co
    rcases h : scopeGet inner name with _ | b
    · simp [add_typedef_name, h]
    · cases b <;> simp [add_typedef_name, h]
  · intro inner rest name co
    rcases h : scopeGet inner name with _ | b
    · simp [add_identifier, h]
    · cases b <;> simp [add_identifier, h]

/-! ## C1 -/

/-- C1 counterexample: a successful `parse` does not return the `FileAST`
node as its result — it returns the 2-tuple `(FileAST, graph)`
(`return self.cparser.parse(...), self.graph`), which is not a bare
`FileAST` value. -/
theorem counterexample_C1 :
    CParser_parse (.ok (.FileAST [])) ⟨0⟩ = .ok (.pair (.FileAST []) ⟨0⟩) ∧
    (PyVal.pair (.FileAST []) ⟨0⟩).isBareFileAST = false :=
  ⟨rfl, rfl⟩

/-- C1 (amended): a successful `parse` returns the pair of the parse-result
root and the graph; that root is always a `FileAST` (both alternatives of the
start production build one); a failing parse raises the `ParseError`
propagated from the engine, and `_parse_error` produces a `ParseError`
carrying the single string `"<rendered coordinate>: <message>"` (with the
bare filename standing in for the coordinate at end of input). -/
theorem claim_C1 :
    (∀ c, p_translation_unit_or_empty none c = .ok (.FileAST [], c + 2)) ∧
    (∀ (l : List CAst) (x : CAst) (c : Nat),
      p_translation_unit_or_empty (some (l ++ [x])) c = .ok (.FileAST l, c + 1)) ∧
    (∀ (root : CAst) (g : PydotGraph),
      CParser_parse (.ok root) g = .ok (.pair root g)) ∧
    (∀ (e : PyErr) (g : PydotGraph), CParser_parse (.error e) g = .error e) ∧
    (∀ (m : String) (co : Coord),
      parse_error m (.c co) = .parse ⟨co.render ++ ": " ++ m⟩) ∧
    (∀ fn, p_error_eof fn = .parse ⟨fn ++ ": " ++ "At end of input"⟩) := by
  refine ⟨fun c => rfl, ?_, fun root g => rfl, fun e g => rfl,
    fun m co => rfl, fun fn => rfl⟩
  intro l x c
  simp [p_translation_unit_or_empty, pyPop_append, liftO, Except.map]

/-! ## C7 -/

/-- C7: `_is_type_in_scope` scans the scope stack innermost to outermost and
returns the classification recorded by the first scope containing an entry
for the name (in particular an entry just written to the innermost scope wins
over everything outer), and returns `false` when no scope contains the
name. -/
theorem claim_C7 :
    (∀ (st : ScopeStack) (n : String),
      is_type_in_scope st n = ((st.findSome? fun sc => scopeGet sc (some n)).getD false)) ∧
    (∀ (sc : Scope) (rest : ScopeStack) (n : String) (b : Bool),
      is_type_in_scope (scopeSet sc (some n) b :: rest) n = b) ∧
    (∀ (st : ScopeStack) (n : String),
      (∀ sc ∈ st, scopeGet sc (some n) = none) → is_type_in_scope st n = false) := by
  refine ⟨?_, ?_, ?_⟩
  · intro st n
    induction st with
    | nil => simp [is_type_in_scope, List.findSome?]
    | cons sc rest ih =>
        rcases h : scopeGet sc (some n) with _ | b <;>
          simp [is_type_in_scope, List.findSome?, h, ih]
  · intro sc rest n b
    simp [is_type_in_scope, scopeGet_scopeSet_self]
  · intro st n habs
    induction st with
    | nil => rfl
    | cons sc rest ih =>
        have h0 : scopeGet sc (some n) = none := habs sc (by simp)
        simp only [is_type_in_scope, h0]
        exact ih fun sc2 h2 => habs sc2 (by simp [h2])

/-- C7 witness: in the stack `[{x ↦ typedef}]` the name `y` is recorded
nowhere, and the lookup returns `false`. -/
theorem claim_C7_witness :
    is_type_in_scope [[(some "x", true)]] "y" = false :=
  claim_C7.2.2 [[(some "x", true)]] "y" (by decide)

/-! ## C4 -/

/-- C4: binary expressions are parsed under the source's fixed `precedence`
table — rows lowest to highest `||`, `&&`, `|`, `^`, `&`, `==`/`!=`,
relational, shift, additive, multiplicative, every row left-associative — so
`a + b * c` parses as `BinaryOp("+", a, BinaryOp("*", b, c))`,
`a || b && c` parses as `BinaryOp("||", a, BinaryOp("&&", b, c))`, and any
operator repeated over three operands groups to the left. -/
theorem claim_C4 :
    (∀ (a b c : String) (co1 co2 co3 : Coord) (cnt : Nat),
      binExprParse (.ID a co1) [("PLUS", .ID b co2), ("TIMES", .ID c co3)] cnt =
        .ok (.BinaryOp "+" (.ID a co1)
          (.BinaryOp "*" (.ID b co2) (.ID c co3) co2) co1, cnt + 4)) ∧
    (∀ (a b c : String) (co1 co2 co3 : Coord) (cnt : Nat),
      binExprParse (.ID a co1) [("LOR", .ID b co2), ("LAND", .ID c co3)] cnt =
        .ok (.BinaryOp "||" (.ID a co1)
          (.BinaryOp "&&" (.ID b co2) (.ID c co3) co2) co1, cnt + 4)) ∧
    precedence.map Prod.fst = List.replicate 10 "left" ∧
    ((precedence.map fun r =>
        (r.1, (Multiset.ofList (r.2.map fun t => (tokOpText t).getD "?"))))
      = precedence_spec.map fun r => (r.1, Multiset.ofList r.2)) ∧
    (∀ t ∈ allOpToks, ∀ txt, tokOpText t = some txt →
      ∀ (a b c : String) (co1 co2 co3 : Coord) (cnt : Nat),
        binExprParse (.ID a co1) [(t, .ID b co2), (t, .ID c co3)] cnt =
          .ok (.BinaryOp txt (.BinaryOp txt (.ID a co1) (.ID b co2) co1)
            (.ID c co3) co1, cnt + 4)) := by
  refine ⟨fun a b c co1 co2 co3 cnt => rfl, fun a b c co1 co2 co3 cnt => rfl,
    rfl, by decide, ?_⟩
  intro t ht
  simp [allOpToks, precedence] at ht
  rcases ht with rfl | rfl | rfl | rfl | rfl | rfl | rfl | rfl | rfl | rfl | rfl |
    rfl | rfl | rfl | rfl | rfl | rfl | rfl <;>
    (intro txt htxt
     simp [tokOpText] at htxt
     subst htxt
     intro a b c co1 co2 co3 cnt
     rfl)

/-- C4 witness: the left-associativity conjunct applied to the `-` operator:
`a - b - c` parses as `BinaryOp("-", BinaryOp("-", a, b), c)`. -/
theorem claim_C4_witness :
    binExprParse (.ID "a" ⟨"t.c", 1, none⟩)
        [("MINUS", .ID "b" ⟨"t.c", 1, none⟩), ("MINUS", .ID "c" ⟨"t.c", 1, none⟩)] 14 =
      .ok (.BinaryOp "-"
        (.BinaryOp "-" (.ID "a" ⟨"t.c", 1, none⟩) (.ID "b" ⟨"t.c", 1, none⟩)
          ⟨"t.c", 1, none⟩)
        (.ID "c" ⟨"t.c", 1, none⟩) ⟨"t.c", 1, none⟩, 18) :=
  claim_C4.2.2.2.2 "MINUS" (by decide) "-" rfl "a" "b" "c"
    ⟨"t.c", 1, none⟩ ⟨"t.c", 1, none⟩ ⟨"t.c", 1, none⟩ 14

/-! ## C8 -/

/-- When the registration loop of `p_direct_declarator_6` succeeds it only
rewrites the innermost scope: every parameter before the first
`EllipsisParam` ends up recorded there as a non-type (`false`), and
previously recorded non-type entries survive. -/
theorem registerParams_ok_spec (ps : List CAst) :
    ∀ (inner : Scope) (rest st' : ScopeStack),
      registerParams ps (inner :: rest) = .ok st' →
      ∃ inner', st' = inner' :: rest ∧
        (∀ nm, scopeGet inner nm = some false → scopeGet inner' nm = some false) ∧
        (∀ p ∈ ps.takeWhile (fun q => !q.isEllipsisParam), ∀ nm, p.name? = some nm →
          scopeGet inner' nm = some false) := by
  induction ps with
  | nil =>
      intro inner rest st' h
      have h' : (inner :: rest : ScopeStack) = st' := by
        simpa [registerParams, pure, Except.pure] using h
      subst h'
      exact ⟨inner, rfl, fun nm hnm => hnm, by simp⟩
  | cons p ps ih =>
      intro inner rest st' h
      by_cases hell : p.isEllipsisParam
      · have h' : (inner :: rest : ScopeStack) = st' := by
          simpa [registerParams, hell, pure, Except.pure] using h
        subst h'
        refine ⟨inner, rfl, fun nm hnm => hnm, ?_⟩
        simp [List.takeWhile_cons, hell]
      · rw [registerParams, if_neg hell] at h
        rcases hn : p.name? with _ | nm0 <;> rw [hn] at h
        · simp [liftO, Bind.bind, Except.bind] at h
        rcases hc : p.coord? with _ | co0 <;> rw [hc] at h
        · simp [liftO, Bind.bind, Except.bind] at h
        simp only [liftO, Bind.bind, Except.bind] at h
        rw [add_identifier] at h
        by_cases hcc : (scopeGet inner nm0).getD false = true
        · rw [if_pos hcc] at h
          simp at h
        · rw [if_neg hcc] at h
          simp only [Except.bind] at h
          obtain ⟨inner', h1, h2, h3⟩ :=
            ih (scopeSet inner nm0 false) rest st' h
          refine ⟨inner', h1, ?_, ?_⟩
          · intro nm hnm
            apply h2
            by_cases he : nm = nm0
            · subst he; exact scopeGet_scopeSet_self _ _ _
            · rw [scopeGet_scopeSet_ne _ _ _ _ he]; exact hnm
          · intro q hq nm hnm
            rw [List.takeWhile_cons, if_pos (by simp [hell])] at hq
            rcases List.mem_cons.mp hq with rfl | hq2
            · rw [hn] at hnm
              cases hnm
              exact h2 nm0 (scopeGet_scopeSet_self _ _ _)
            · exact h3 q hq2 nm hnm

/-- C8: whenever a `direct_declarator` reduction builds a function declarator
while the parser's lookahead token is an opening brace, the reduction itself
registers every named parameter up to the parameter list's `EllipsisParam` as
an identifier (classification `false`) in the current — innermost — scope,
leaving all outer scopes untouched, before any token of the brace's body is
reduced. -/
theorem claim_C8 (p1 : CAst) (ps : List CAst) (plco : Coord) (inner : Scope)
    (rest : ScopeStack) (c : Nat) (res : CAst) (st' : ScopeStack) (c' : Nat)
    (hrun : p_direct_declarator_6 p1 (some (.ParamList ps plco)) "LBRACE"
      (inner :: rest) c = .ok (res, st', c')) :
    ∃ inner', st' = inner' :: rest ∧
      ∀ p ∈ ps.takeWhile (fun q => !q.isEllipsisParam), ∀ nm, p.name? = some nm →
        scopeGet inner' nm = some false := by
  rcases hco : p1.coord? with _ | co0 <;>
    rw [p_direct_declarator_6, hco] at hrun
  · simp [liftO, Bind.bind, Except.bind] at hrun
  simp only [liftO, Bind.bind, Except.bind, CAst.params?,
    if_pos (show (("LBRACE" == "LBRACE") = true) from rfl)] at hrun
  rcases hreg : registerParams ps (inner :: rest) with e | st2 <;>
    rw [hreg] at hrun
  · simp [Except.bind] at hrun
  rcases htm : type_modify_decl p1
      (.FuncDecl (some (.ParamList ps plco)) none co0) with _ | d0 <;>
    rw [htm] at hrun
  · simp [Except.bind] at hrun
  simp [pure, Except.pure] at hrun
  obtain ⟨h1, h2, h3⟩ := hrun
  obtain ⟨inner', hA, hB, hC⟩ := registerParams_ok_spec ps inner rest st2 hreg
  exact ⟨inner', h2 ▸ hA, fun p hp nm hnm => hC p hp nm hnm⟩

/-- C8 witness: reducing `f(a, b)` with lookahead `{` over the stack
`[{}, {}]` registers `a` and `b` as identifiers in the innermost scope. -/
theorem claim_C8_witness :
    ∃ inner', ([[(some "a", false), (some "b", false)], []] : ScopeStack) =
        inner' :: [[]] ∧
      ∀ p ∈ ([CAst.ID "a" ⟨"w.c", 1, none⟩, CAst.ID "b" ⟨"w.c", 1, none⟩] :
          List CAst).takeWhile (fun q => !q.isEllipsisParam),
        ∀ nm, p.name? = some nm → scopeGet inner' nm = some false :=
  claim_C8 (.TypeDecl (some "f") none none ⟨"w.c", 1, none⟩)
    [CAst.ID "a" ⟨"w.c", 1, none⟩, CAst.ID "b" ⟨"w.c", 1, none⟩]
    ⟨"w.c", 1, none⟩ [] [[]] 14
    (.FuncDecl
      (some (.ParamList [CAst.ID "a" ⟨"w.c", 1, none⟩, CAst.ID "b" ⟨"w.c", 1, none⟩]
        ⟨"w.c", 1, none⟩))
      (some (.TypeDecl (some "f") none none ⟨"w.c", 1, none⟩)) ⟨"w.c", 1, none⟩)
    [[(some "a", false), (some "b", false)], []] 17 rfl

/-! ## C5 -/

/-- One declarator modifier, as the parser stacks them above the terminal
`TypeDecl` while the chain's `type` slots are still open. -/
inductive Mod where
  | ptr (q : List String) (co : Coord)
  | arr (dim : Option CAst) (dq : List String) (co : Coord)
  | fn (args : Option CAst) (co : Coord)

/-- Wrap a base node in a chain of modifiers, outermost first. -/
def wrapMods : List Mod → CAst → CAst
  | [], base => base
  | .ptr q co :: ms, base => .PtrDecl q (some (wrapMods ms base)) co
  | .arr d dq co :: ms, base => .ArrayDecl d dq (some (wrapMods ms base)) co
  | .fn a co :: ms, base => .FuncDecl a (some (wrapMods ms base)) co

/-- Whether the outermost modifier of a chain is a function declarator. -/
def headIsFunc : List Mod → Bool
  | .fn _ _ :: _ => true
  | _ => false

/-- The terminal-`TypeDecl` walk lands on the base of a modifier chain. -/
theorem findTerminal_wrap (ms : List Mod) (dn : Option String)
    (dq : Option (List String)) (t : Option CAst) (co : Coord) :
    findTerminalTypeDecl (wrapMods ms (.TypeDecl dn dq t co)) =
      some (.TypeDecl dn dq t co) := by
  induction ms with
  | nil => rfl
  | cons m ms ih => cases m <;> simp [wrapMods, findTerminalTypeDecl, ih]

/-- Rewriting the terminal `TypeDecl` of a modifier chain rebuilds the same
chain around the rewritten base. -/
theorem replaceTerminal_wrap (ms : List Mod) (dn : Option String)
    (dq : Option (List String)) (t : Option CAst) (co : Coord) (f : CAst → CAst) :
    replaceTerminalTypeDecl (wrapMods ms (.TypeDecl dn dq t co)) f =
      some (wrapMods ms (f (.TypeDecl dn dq t co))) := by
  induction ms with
  | nil => rfl
  | cons m ms ih => cases m <;> simp [wrapMods, replaceTerminalTypeDecl, ih]

/-- Checking `isinstance(decl.type, FuncDecl)` on a wrapped chain asks
whether the outermost modifier is a function declarator. -/
theorem wrap_isFuncDecl (ms : List Mod) (dn : Option String)
    (dq : Option (List String)) (t : Option CAst) (co : Coord) :
    (wrapMods ms (.TypeDecl dn dq t co)).isFuncDecl = headIsFunc ms := by
  cases ms with
  | nil => rfl
  | cons m ms => cases m <;> rfl

/-- C5: resolving a declaration's specifier type list in
`_fix_decl_name_type`, for a `Decl` whose declarator is any modifier chain
over a terminal `TypeDecl`: a non-`IdentifierType` entry alongside any other
entry is the "Invalid multiple types specified" error; an empty list is the
"Missing type in declaration" error unless the declarator's outermost
modifier is a `FuncDecl`, in which case the base type defaults to
`IdentifierType(["int"])`; otherwise the names of all the (then necessarily
basic) specifiers are concatenated into a single `IdentifierType`. -/
theorem claim_C5 (nm : Option String) (q st fs : List String)
    (init bs : Option CAst) (co : Coord) (ms : List Mod) (dn : Option String)
    (dq : Option (List String)) (tdty : Option CAst) (tdco : Coord)
    (tns : List CAst) :
    (∀ tn tc, tns.find? (fun t => !t.isIdentifierType) = some tn →
      1 < tns.length → tn.coord? = some tc →
      fix_decl_name_type
          (.Decl nm q st fs (some (wrapMods ms (.TypeDecl dn dq tdty tdco))) init bs co)
          tns =
        .error (parse_error "Invalid multiple types specified" (.c tc))) ∧
    (tns = [] → headIsFunc ms = false →
      fix_decl_name_type
          (.Decl nm q st fs (some (wrapMods ms (.TypeDecl dn dq tdty tdco))) init bs co)
          tns =
        .error (parse_error "Missing type in declaration" (.c co))) ∧
    (tns = [] → ∀ ar fco ms', ms = .fn ar fco :: ms' →
      fix_decl_name_type
          (.Decl nm q st fs (some (wrapMods ms (.TypeDecl dn dq tdty tdco))) init bs co)
          tns =
        .ok (.Decl dn q st fs
          (some (wrapMods ms
            (.TypeDecl dn (some q) (some (.IdentifierType ["int"] co)) tdco)))
          init bs co)) ∧
    (∀ ns0 c0 restT allNs, tns = .IdentifierType ns0 c0 :: restT →
      tns.find? (fun t => !t.isIdentifierType) = none →
      flatNames tns = some allNs →
      fix_decl_name_type
          (.Decl nm q st fs (some (wrapMods ms (.TypeDecl dn dq tdty tdco))) init bs co)
          tns =
        .ok (.Decl dn q st fs
          (some (wrapMods ms
            (.TypeDecl dn (some q) (some (.IdentifierType allNs c0)) tdco)))
          init bs co)) := by
  refine ⟨?_, ?_, ?_, ?_⟩
  · intro tn tc hfind hlen htc
    have hlen' : tns.length > 1 := hlen
    simp only [fix_decl_name_type, findTerminalTypeDecl, findTerminal_wrap,
      replaceTerminalTypeDecl, replaceTerminal_wrap, CAst.declname?, CAst.declQuals?,
      CAst.setName?, liftO, Bind.bind, Except.bind, Option.map, hfind]
    rw [if_pos hlen', htc]
    rfl
  · rintro rfl hfn
    simp only [fix_decl_name_type, findTerminalTypeDecl, findTerminal_wrap,
      replaceTerminalTypeDecl, replaceTerminal_wrap, CAst.declname?, CAst.declQuals?,
      CAst.setName?, liftO, Bind.bind, Except.bind, Option.map, List.find?,
      List.isEmpty_nil, CAst.ty?, setTypeDeclQuals, wrap_isFuncDecl, hfn,
      CAst.coord?, if_true, Bool.not_false, if_pos]
    rfl
  · rintro rfl ar fco ms' rfl
    simp only [fix_decl_name_type, findTerminalTypeDecl, findTerminal_wrap,
      replaceTerminalTypeDecl, replaceTerminal_wrap, CAst.declname?, CAst.declQuals?,
      CAst.setName?, liftO, Bind.bind, Except.bind, Option.map, List.find?,
      List.isEmpty_nil, CAst.ty?, setTypeDeclQuals, wrap_isFuncDecl, headIsFunc,
      CAst.coord?, setTypeDeclTy, if_true, Bool.not_true]
    rfl
  · rintro ns0 c0 restT allNs rfl hfind hflat
    simp only [fix_decl_name_type, findTerminalTypeDecl, findTerminal_wrap,
      replaceTerminalTypeDecl, replaceTerminal_wrap, CAst.declname?, CAst.declQuals?,
      CAst.setName?, liftO, Bind.bind, Except.bind, Option.map, hfind,
      List.isEmpty_cons, hflat, List.head?, CAst.coord?, setTypeDeclQuals,
      setTypeDeclTy]
    rfl

/-- C5 witness: with an empty specifier type list under a declarator whose
outermost modifier is a `FuncDecl`, the base type defaults to `int`. -/
theorem claim_C5_witness :
    fix_decl_name_type
        (.Decl none [] [] []
          (some (wrapMods [.fn none ⟨"w5.c", 1, none⟩]
            (.TypeDecl (some "g") none none ⟨"w5.c", 1, none⟩)))
          none none ⟨"w5.c", 1, none⟩)
        [] =
      .ok (.Decl (some "g") [] [] []
        (some (wrapMods [.fn none ⟨"w5.c", 1, none⟩]
          (.TypeDecl (some "g") (some [])
            (some (.IdentifierType ["int"] ⟨"w5.c", 1, none⟩)) ⟨"w5.c", 1, none⟩)))
        none none ⟨"w5.c", 1, none⟩) :=
  (claim_C5 none [] [] [] none none ⟨"w5.c", 1, none⟩
      [.fn none ⟨"w5.c", 1, none⟩] (some "g") none none ⟨"w5.c", 1, none⟩
      []).2.2.1 rfl none ⟨"w5.c", 1, none⟩ [] rfl

/-! ## C9 -/

/-- C9 counterexample: in the parse of
`int f(a, b) int a, b; { return a + b; }` the parameters stored in `f`'s
`FuncDecl` are the bare identifier-list nodes `ID("a")`, `ID("b")` — no node
among them carries a type at all, so the `FuncDecl` does NOT hold two
int-typed parameters, and no positional matching of the trailing declaration
list against the identifier list ever happens. -/
theorem counterexample_C9 :
    ((firstExtOfRun (runC9 "t.c")).bind fdArgsParams) =
      some [.ID "a" ⟨"t.c", 1, none⟩, .ID "b" ⟨"t.c", 1, none⟩] ∧
    (([.ID "a" ⟨"t.c", 1, none⟩, .ID "b" ⟨"t.c", 1, none⟩] :
        List CAst).all CAst.isTypedParamNode) = false :=
  ⟨rfl, rfl⟩

/-- The declaration inside a `FuncDef`. -/
def fdDecl? : CAst → Option CAst
  | .FuncDef d _ _ _ => some d
  | _ => none

/-- C9 (amended): parsing the K&R-style definition
`int f(a, b) int a, b; { return a + b; }` produces a `FuncDef` whose
declaration is `Decl("f")` typed as a `FuncDecl` whose `args` is the bare
identifier list `ParamList([ID("a"), ID("b")])` returning `int`; the trailing
declaration list is NOT matched against the identifier list but kept
verbatim (graph-reference strings included) as `FuncDef.param_decls`, whose
`Decl` entries are the two int-typed declarations of `a` and `b`. -/
theorem claim_C9 (fn : String) :
    ((firstExtOfRun (runC9 fn)).bind fdDecl?) =
      some (.Decl (some "f") [] [] []
        (some (.FuncDecl
          (some (.ParamList [.ID "a" (plyCoord fn 1), .ID "b" (plyCoord fn 1)]
            (plyCoord fn 1)))
          (some (.TypeDecl (some "f") (some [])
            (some (.IdentifierType ["int"] (plyCoord fn 1))) (plyCoord fn 1)))
          (plyCoord fn 1)))
        none none (plyCoord fn 1)) ∧
    ((firstExtOfRun (runC9 fn)).bind fdParamDecls).map declsOnly =
      some [
        .Decl (some "a") [] [] []
          (some (.TypeDecl (some "a") (some [])
            (some (.IdentifierType ["int"] (plyCoord fn 1))) (plyCoord fn 1)))
          none none (plyCoord fn 1),
        .Decl (some "b") [] [] []
          (some (.TypeDecl (some "b") (some [])
            (some (.IdentifierType ["int"] (plyCoord fn 1))) (plyCoord fn 1)))
          none none (plyCoord fn 1)] :=
  ⟨rfl, rfl⟩

end CParserModel
